import Mathlib

/-!
Verification development for `Tools/update_billboard.py` of the
billboard-hot100-scraper repository.

The Python module scrapes Wikipedia "List of Billboard Hot 100 number ones
of YEAR" pages, extracts (issue date, song, artist) rows from wikitable
tables, writes one JSON array per year and concatenates them into a
combined artifact.  The shallow embedding below mirrors the module
function by function:

* a parsed HTML page is a list of `Table`s; a table carries its class
  attribute tokens, the rows of an explicit `thead` element (empty when the
  markup has none, as on Wikipedia pages) and the rows of its `tbody`.
  The lxml HTML parser always wraps a table's bare rows in a `tbody`
  element, so `table.find("tbody") or table` resolves to the tbody rows,
  and `table.find("tr")` is the first thead row when a thead with rows
  exists, otherwise the first tbody row.  A cell is its extracted text
  (`get_text(" ")` is the abstraction boundary).
* `norm_text`, `try_parse_date`, `header_map_from_table`,
  `extract_rows_for_year`, `combine_all_years`, `scrape_year` and the
  per-run composition are translated directly; `datetime.strptime` with
  the `"%B %d %Y"` format and `re` uses are modelled at the level CPython
  implements them (full month names case-insensitively, day `3[01]|[12]\d|0[1-9]|[1-9]`,
  year exactly four digits, calendar validation including leap years).
  Whitespace predicates cover the ASCII whitespace the inputs contain.
-/

namespace Billboard

/-- A table row: the list of its cells' texts (`tr.find_all(["td","th"])`,
each cell read with `get_text(" ")`). -/
abbrev Row := List String

/-- A parsed `<table>` element: its `class` attribute tokens, the rows of an
explicit `<thead>` (empty list when the markup has none) and the rows of its
`<tbody>` (lxml wraps bare table rows in a tbody). -/
structure Table where
  classes : List String
  thead : List Row
  tbody : List Row
deriving DecidableEq

/-- The `WeekRow` dataclass of the module. -/
structure WeekRow where
  year : Nat
  issue_date : Option String
  week : Option String
  song : String
  artist : String
  source : String
  row_index : Nat
deriving DecidableEq

/-- ASCII whitespace, the characters Python's `str.strip` / `\s` treat as
whitespace in the inputs at hand (space, tab, LF, VT, FF, CR). -/
def pyWs (c : Char) : Bool :=
  c == ' ' || c == '\t' || c == '\n' || c == '\r' || c.toNat == 11 || c.toNat == 12

/-- ASCII decimal digit. -/
def isDig (c : Char) : Bool := '0' ≤ c && c ≤ '9'

/-- ASCII lowercase, as `str.lower` acts on the ASCII inputs at hand. -/
def lowerChar (c : Char) : Char :=
  if 'A' ≤ c && c ≤ 'Z' then Char.ofNat (c.toNat + 32) else c

/-- Value of an ASCII digit. -/
def digitVal (c : Char) : Nat := c.toNat - 48

/-- ASCII digit for a value below ten. -/
def digCh (n : Nat) : Char := Char.ofNat (48 + n)

/-- The two `str.replace` calls of `norm_text`: NBSP (U+00A0) and the
zero-width space (U+200B) become plain spaces. -/
def replaceSpecials (cs : List Char) : List Char :=
  cs.map fun c => if c.toNat == 160 || c.toNat == 8203 then ' ' else c

/-- Python `str.strip()`: drop whitespace from both ends. -/
def stripWsEnds (cs : List Char) : List Char :=
  ((cs.dropWhile pyWs).reverse.dropWhile pyWs).reverse

/-- The `re.sub(r"\s+", " ", s)` step: every whitespace run becomes one
space. -/
def collapseWs : List Char → List Char
  | [] => []
  | [c] => [if pyWs c then ' ' else c]
  | a :: b :: rest =>
    if pyWs a && pyWs b then collapseWs (b :: rest)
    else (if pyWs a then ' ' else a) :: collapseWs (b :: rest)

/-- `norm_text` of the module: replace NBSP/ZWSP by spaces, strip the ends,
collapse whitespace runs. -/
def norm_text (s : String) : String :=
  String.mk (collapseWs (stripWsEnds (replaceSpecials s.data)))

/-- Python `str.lower` (ASCII). -/
def lowerStr (s : String) : String := String.mk (s.data.map lowerChar)

/-- Python's `needle in hay` on character lists. -/
def hasSubstr (hay needle : List Char) : Bool :=
  match hay with
  | [] => needle.isEmpty
  | _ :: t => needle.isPrefixOf hay || hasSubstr t needle

/-- Python's `needle in hay` on strings. -/
def strContains (hay needle : String) : Bool := hasSubstr hay.data needle.data

/-- The `mapping` dict built by `header_map_from_table`: the column index
each role was (last) assigned, if any. -/
structure HMap where
  date : Option Nat
  song : Option Nat
  artist : Option Nat
deriving DecidableEq

/-- Keywords classifying a header cell as the date column. -/
def dateKeywords : List String := ["issue date", "date", "week of"]

/-- Keywords classifying a header cell as the song column. -/
def songKeywords : List String := ["song", "single", "title"]

/-- Keywords classifying a header cell as the artist column. -/
def artistKeywords : List String := ["artist(s)", "artist"]

/-- One iteration of the header-cell loop: normalize and lowercase the cell
text, then the `if`/`elif` keyword chain assigns (overwrites) the matching
role's index. -/
def roleStep (m : HMap) (idx : Nat) (cellText : String) : HMap :=
  let low := lowerStr (norm_text cellText)
  if dateKeywords.any fun k => strContains low k then { m with date := some idx }
  else if songKeywords.any fun k => strContains low k then { m with song := some idx }
  else if artistKeywords.any fun k => strContains low k then { m with artist := some idx }
  else m

/-- The header row the module settles on: the first row of an explicit
thead when there is one, otherwise the first row of the table (which lives
in its tbody). -/
def headerRowOf (t : Table) : Option Row :=
  match t.thead.head? with
  | some r => some r
  | none => t.tbody.head?

/-- `header_map_from_table`: fold the keyword classifier over the header
row's cells with their indices.  No header row leaves the map empty. -/
def header_map_from_table (t : Table) : HMap :=
  match headerRowOf t with
  | none => ⟨none, none, none⟩
  | some hr =>
    (hr.foldl (fun p c => (roleStep p.1 p.2 c, p.2 + 1))
      ((⟨none, none, none⟩ : HMap), 0)).1

/-- Full English month names, lowercased, in calendar order (the names
`strptime`'s `%B` accepts, compared case-insensitively). -/
def monthNamesLower : List String :=
  ["january", "february", "march", "april", "may", "june",
   "july", "august", "september", "october", "november", "december"]

/-- Month number from a `%B` token: the token must equal a full month name
up to case. -/
def monthFromName (p : List Char) : Option Nat :=
  match monthNamesLower.findIdx? (fun nm => nm.data == p.map lowerChar) with
  | some i => some (i + 1)
  | none => none

/-- Day number from a `%d` token: CPython's `3[01]|[12]\d|0[1-9]|[1-9]`,
matching the whole token. -/
def dayFromToken (p : List Char) : Option Nat :=
  match p with
  | [c] => if '1' ≤ c && c ≤ '9' then some (digitVal c) else none
  | [a, b] =>
    if a == '3' && (b == '0' || b == '1') then some (30 + digitVal b)
    else if (a == '1' || a == '2') && isDig b then some (digitVal a * 10 + digitVal b)
    else if a == '0' && ('1' ≤ b && b ≤ '9') then some (digitVal b)
    else none
  | _ => none

/-- Numeric value of a digit token. -/
def charsToNat (cs : List Char) : Nat := cs.foldl (fun a c => a * 10 + digitVal c) 0

/-- Year from a `%Y` token: exactly four digits; year 0 is rejected when
`datetime` is constructed (`MINYEAR = 1`). -/
def yearFromToken (p : List Char) : Option Nat :=
  if p.length = 4 ∧ p.all isDig ∧ charsToNat p ≠ 0 then some (charsToNat p) else none

/-- Gregorian leap year. -/
def isLeap (y : Nat) : Bool := y % 4 == 0 && (y % 100 != 0 || y % 400 == 0)

/-- Days in a month, as `datetime` validates them. -/
def daysInMonth (m y : Nat) : Nat :=
  if m = 2 then (if isLeap y then 29 else 28)
  else if m = 4 ∨ m = 6 ∨ m = 9 ∨ m = 11 then 30
  else 31

/-- `datetime.strptime(f"{mTok} {dTok} {yTok}", "%B %d %Y")`: the three
whitespace-free tokens must be a full month name (case-insensitive), a
CPython `%d` day and a four-digit year, and the day must exist in that
month.  Returns (year, month, day). -/
def strptimeBDY (mTok dTok yTok : List Char) : Option (Nat × Nat × Nat) :=
  match monthFromName mTok, dayFromToken dTok, yearFromToken yTok with
  | some m, some d, some y => if d ≤ daysInMonth m y then some (y, m, d) else none
  | _, _, _ => none

/-- Decimal digits of a number (no padding); fuel-structured so it reduces
in the kernel. -/
def natToCharsAux : Nat → Nat → List Char
  | 0, _ => []
  | fuel + 1, n => if n < 10 then [digCh n] else natToCharsAux fuel (n / 10) ++ [digCh (n % 10)]

/-- Decimal digits of a number. -/
def natToChars (n : Nat) : List Char := natToCharsAux (n + 1) n

/-- Zero-pad a number's digits to a width. -/
def padDigits (w n : Nat) : List Char :=
  List.replicate (w - (natToChars n).length) '0' ++ natToChars n

/-- `dt.strftime("%Y-%m-%d")`. -/
def fmtIso : Nat × Nat × Nat → String
  | (y, m, d) => String.mk (padDigits 4 y ++ ['-'] ++ padDigits 2 m ++ ['-'] ++ padDigits 2 d)

/-- `re.match(r"(\d{4})-(\d{2})-(\d{2})", t)`: an anchored prefix test, the
rest of the text unconstrained. -/
def isoDatePrefix : List Char → Bool
  | a :: b :: c :: d :: e :: f :: g :: h :: i :: j :: _ =>
    isDig a && isDig b && isDig c && isDig d && e == '-' &&
    isDig f && isDig g && h == '-' && isDig i && isDig j
  | _ => false

/-- Python `str.split()` (split on whitespace runs, no empty parts),
accumulator form. -/
def splitWsAux : List Char → List Char → List (List Char)
  | [], acc => if acc.isEmpty then [] else [acc.reverse]
  | c :: rest, acc =>
    if pyWs c then
      (if acc.isEmpty then splitWsAux rest [] else acc.reverse :: splitWsAux rest [])
    else splitWsAux rest (c :: acc)

/-- Python `str.split()`. -/
def splitWs (cs : List Char) : List (List Char) := splitWsAux cs []

/-- Does a full month name start here (case-insensitively)?  Returns the
matched characters as written and the remainder.  At most one name can
match at a given position, so trying them in order is the regex
alternation. -/
def matchMonthAt (cs : List Char) : Option (List Char × List Char) :=
  monthNamesLower.findSome? fun nm =>
    let nd := nm.data
    if nd.isPrefixOf (cs.map lowerChar) then some (cs.take nd.length, cs.drop nd.length)
    else none

/-- After the month name the pattern needs `\s+` then `\d{1,2}` (greedy):
at least one whitespace, then one or two digits. -/
def wsThenDay (cs : List Char) : Option (List Char) :=
  match cs with
  | c :: rest =>
    if pyWs c then
      match rest.dropWhile pyWs with
      | a :: b :: _ => if isDig a then some (if isDig b then [a, b] else [a]) else none
      | [a] => if isDig a then some [a] else none
      | [] => none
    else none
  | [] => none

/-- `re.search(r"(January|...|December)\s+(\d{1,2})", cleaned, re.I)`:
leftmost position where a month name is followed by whitespace and a day;
returns the month group (original case) and the day group. -/
def searchMonthDay : List Char → Option (List Char × List Char)
  | [] => none
  | c :: rest =>
    match matchMonthAt (c :: rest) with
    | some (mo, after) =>
      match wsThenDay after with
      | some day => some (mo, day)
      | none => searchMonthDay rest
    | none => searchMonthDay rest

/-- `try_parse_date` of the module: normalize; an ISO-looking prefix returns
the whole normalized text; otherwise drop `.`/`,`, split, and try
`"%B %d %Y"` on two tokens plus the year hint or on three tokens whose last
is a four-digit number; finally search anywhere for a month name followed by
a day and retry with the year hint.  Any `strptime` failure falls through to
the next stage; a failure in the final stage returns `none`. -/
def try_parse_date (cell_text : String) (year_hint : Nat) : Option String :=
  let t := norm_text cell_text
  if t.data.isEmpty then none
  else if isoDatePrefix t.data then some t
  else
    let cleaned := t.data.filter fun c => !(c == '.' || c == ',')
    let parts := splitWs cleaned
    let viaParts : Option (Nat × Nat × Nat) :=
      match parts with
      | [p0, p1] => strptimeBDY p0 p1 (natToChars year_hint)
      | [p0, p1, p2] =>
        if p2.all isDig ∧ p2.length = 4 then strptimeBDY p0 p1 p2 else none
      | _ => none
    match viaParts with
    | some ymd => some (fmtIso ymd)
    | none =>
      match searchMonthDay cleaned with
      | some (mo, da) => (strptimeBDY mo da (natToChars year_hint)).map fmtIso
      | none => none

/-- The quote-stripping set of `song.strip("“”\"' ")`: left/right curly
double quotes, the straight double quote, the apostrophe and the space. -/
def quoteChars : List Char :=
  [Char.ofNat 8220, Char.ofNat 8221, Char.ofNat 34, Char.ofNat 39, Char.ofNat 32]

/-- Python `s.strip(chars)` for the quote set. -/
def stripQS (s : String) : String :=
  String.mk (((s.data.dropWhile (quoteChars.contains ·)).reverse.dropWhile
    (quoteChars.contains ·)).reverse)

/-- The `issue_iso` local of the row loop: the date cell is parsed only
when the date role is mapped and its index is inside the row, else `None`. -/
def dateOfRow (dIdx : Option Nat) (year : Nat) (tds : Row) : Option String :=
  match dIdx with
  | some d => if d < tds.length then try_parse_date (tds.getD d "") year else none
  | none => none

/-- One data row of the row loop of `extract_rows_for_year`, with the
table's role indices (`si`, `ai` are the mapped song and artist indices,
`dIdx` the date index if any) and the pending `row_idx`.  `none` means the
row is skipped (`continue`): fewer than two cells, a song or artist index
outside the row (the `IndexError` branch), or an empty normalized song or
artist.  The record assigns `issue_iso` to both `issue_date` and `week`. -/
def processRow (dIdx : Option Nat) (si ai year : Nat) (src : String) (idx : Nat)
    (tds : Row) : Option WeekRow :=
  if tds.length < 2 then none
  else
    match tds[si]?, tds[ai]? with
    | some songCell, some artistCell =>
      if norm_text songCell = "" ∨ norm_text artistCell = "" then none
      else
        some { year := year,
               issue_date := dateOfRow dIdx year tds,
               week := dateOfRow dIdx year tds,
               song := stripQS (norm_text songCell),
               artist := stripQS (norm_text artistCell),
               source := src, row_index := idx }
    | _, _ => none

/-- The row loop: `row_idx` starts at 0 per table and increments only when
a record is appended. -/
def rowsLoop (dIdx : Option Nat) (si ai year : Nat) (src : String) :
    List Row → Nat → List WeekRow
  | [], _ => []
  | tds :: rest, idx =>
    match processRow dIdx si ai year src idx tds with
    | some r => r :: rowsLoop dIdx si ai year src rest (idx + 1)
    | none => rowsLoop dIdx si ai year src rest idx

/-- One table's contribution: the Python guard
`if not hmap or "song" not in hmap or "artist" not in hmap: continue`
keeps a table exactly when both the song and the artist roles are mapped
(an empty map has no song role), and then walks the tbody rows. -/
def tableRows (t : Table) (year : Nat) (src : String) : List WeekRow :=
  match (header_map_from_table t).song, (header_map_from_table t).artist with
  | some si, some ai =>
    rowsLoop (header_map_from_table t).date si ai year src t.tbody 0
  | _, _ => []

/-- The `class_=lambda c: c and "wikitable" in c` filter of
`soup.find_all("table", ...)`, applied per class token. -/
def isWikitable (t : Table) : Bool := t.classes.any fun c => strContains c "wikitable"

/-- `extract_rows_for_year`: every wikitable-classed table's rows, in page
order. -/
def extract_rows_for_year (tables : List Table) (year : Nat) (source_url : String) :
    List WeekRow :=
  (tables.filter isWikitable).flatMap fun t => tableRows t year source_url

/-- `START_YEAR` of the module. -/
def START_YEAR : Nat := 1958

/-- `range(START_YEAR, THIS_YEAR + 1)` as a list (empty when the end is
before the start). -/
def yearRange (start last : Nat) : List Nat := List.range' start (last + 1 - start)

/-- `combine_all_years`: walk the year range, append each year's stored
array when its file exists and parses (`none` models a missing or unreadable
file, skipped silently). -/
def combine_all_years (files : Nat → Option (List WeekRow)) (start last : Nat) :
    List WeekRow :=
  (yearRange start last).foldl
    (fun acc y => match files y with
      | some arr => acc ++ arr
      | none => acc) []

/-- `WIKI_YEAR_URL.format(year=year)`. -/
def wiki_year_url (y : Nat) : String :=
  "https://en.wikipedia.org/wiki/List_of_Billboard_Hot_100_number_ones_of_" ++
    String.mk (natToChars y)

/-- `scrape_year`, seen as the per-year dataset it writes to
`{OUT_DIR}/{year}.json`: the extracted rows on a successful fetch; the
empty array when `fetch_html` raised after exhausting its retries (the
`except` branch writes `[]` and returns instead of re-raising). -/
def scrape_year (fetch : Nat → Except String (List Table)) (y : Nat) : List WeekRow :=
  match fetch y with
  | .ok page => extract_rows_for_year page y (wiki_year_url y)
  | .error _ => []

/-- The combined dataset `main` produces: every year in the range is
scraped and written, then `combine_all_years` reads the freshly written
files back. -/
def runCombined (fetch : Nat → Except String (List Table)) (start last : Nat) :
    List WeekRow :=
  combine_all_years (fun y => some (scrape_year fetch y)) start last

/-! Helper lemmas shared by the claim theorems. -/

/-- The combining fold, started from any accumulator, appends the flattened
per-year arrays. -/
theorem combine_foldl_eq (files : Nat → Option (List WeekRow)) (ys : List Nat)
    (acc : List WeekRow) :
    ys.foldl (fun acc y => match files y with
      | some arr => acc ++ arr
      | none => acc) acc
      = acc ++ ys.flatMap (fun y => (files y).getD []) := by
  induction ys generalizing acc with
  | nil => simp
  | cons y ys ih =>
    rw [List.foldl_cons, List.flatMap_cons, ih]
    cases h : files y <;> simp

/-- `combine_all_years` is plain concatenation of the per-year arrays in
ascending year order. -/
theorem combine_all_years_eq_flatMap (files : Nat → Option (List WeekRow))
    (start last : Nat) :
    combine_all_years files start last
      = (yearRange start last).flatMap (fun y => (files y).getD []) := by
  unfold combine_all_years
  rw [combine_foldl_eq]
  rfl

/-- Fields every record built by the row loop carries: the page's year, a
`week` equal to `issue_date`, and the page's source tag. -/
theorem processRow_shape {dIdx : Option Nat} {si ai year : Nat} {src : String}
    {idx : Nat} {tds : Row} {r : WeekRow}
    (h : processRow dIdx si ai year src idx tds = some r) :
    r.year = year ∧ r.week = r.issue_date ∧ r.source = src := by
  unfold processRow at h
  split at h
  · exact absurd h (by simp)
  · split at h
    · split at h
      · exact absurd h (by simp)
      · injection h with h
        subst h
        exact ⟨rfl, rfl, rfl⟩
    · exact absurd h (by simp)

/-- The row loop only emits records `processRow` built. -/
theorem rowsLoop_shape (dIdx : Option Nat) (si ai year : Nat) (src : String) :
    ∀ (rows : List Row) (idx : Nat) (r : WeekRow),
      r ∈ rowsLoop dIdx si ai year src rows idx →
      r.year = year ∧ r.week = r.issue_date ∧ r.source = src := by
  intro rows
  induction rows with
  | nil => intro idx r h; simp [rowsLoop] at h
  | cons tds rest ih =>
    intro idx r h
    rw [rowsLoop] at h
    cases hp : processRow dIdx si ai year src idx tds with
    | some r0 =>
      rw [hp] at h
      rcases List.mem_cons.mp h with rfl | hmem
      · exact processRow_shape hp
      · exact ih _ _ hmem
    | none =>
      rw [hp] at h
      exact ih _ _ h

/-- Every record a table contributes went through the row loop. -/
theorem tableRows_shape (t : Table) (year : Nat) (src : String) (r : WeekRow)
    (h : r ∈ tableRows t year src) :
    r.year = year ∧ r.week = r.issue_date ∧ r.source = src := by
  unfold tableRows at h
  revert h
  cases hs : (header_map_from_table t).song with
  | none => intro h; exact absurd h (by simp)
  | some si =>
    cases ha : (header_map_from_table t).artist with
    | none => intro h; exact absurd h (by simp)
    | some ai => intro h; exact rowsLoop_shape _ _ _ _ _ _ _ _ h

/-- Every record of a page extraction carries the page's year, equal `week`
and `issue_date` fields, and the page's source tag. -/
theorem extract_shape (tables : List Table) (year : Nat) (src : String) (r : WeekRow)
    (h : r ∈ extract_rows_for_year tables year src) :
    r.year = year ∧ r.week = r.issue_date ∧ r.source = src := by
  unfold extract_rows_for_year at h
  rcases List.mem_flatMap.mp h with ⟨t, _, hm⟩
  exact tableRows_shape t year src r hm

/-- Every record a year's scrape writes carries that year. -/
theorem scrape_year_year (fetch : Nat → Except String (List Table)) (y : Nat)
    (r : WeekRow) (h : r ∈ scrape_year fetch y) : r.year = y := by
  unfold scrape_year at h
  revert h
  cases fetch y with
  | ok page => intro h; exact (extract_shape page y (wiki_year_url y) r h).1
  | error e => intro h; exact absurd h (by simp)

/-- Bounds of the scraped year range. -/
theorem mem_yearRange {start last y : Nat} (h : y ∈ yearRange start last) :
    start ≤ y ∧ y ≤ last := by
  unfold yearRange at h
  rw [List.mem_range'_1] at h
  omega

/-! Concrete fixtures used to settle the claims.  Each is a small page in
the shape the module consumes: a wikitable-classed table, its header row
either inside an explicit thead or (as in Wikipedia markup) as the first
body row. -/

/-- A table whose body repeats one chart row twice (equal dedup keys). -/
def dupTable : Table :=
  ⟨["wikitable"],
   [["Issue date", "Song", "Artist(s)"]],
   [["January 6, 2018", "Havana", "Camila Cabello"],
    ["January 6, 2018", "Havana", "Camila Cabello"]]⟩

/-- A fetch that serves `dupTable` for every year. -/
def dupFetch : Nat → Except String (List Table) := fun _ => .ok [dupTable]

/-- A table whose body rows carry descending issue dates. -/
def unsortedTable : Table :=
  ⟨["wikitable"],
   [["Issue date", "Song", "Artist(s)"]],
   [["January 13, 2018", "B", "Y"],
    ["January 6, 2018", "A", "Y"]]⟩

/-- A fetch that serves `unsortedTable` for every year. -/
def unsortedFetch : Nat → Except String (List Table) := fun _ => .ok [unsortedTable]

/-- Modelled from the spec's words for comparison (C2): strict lexicographic
order on character lists. -/
def lexLt : List Char → List Char → Bool
  | [], [] => false
  | [], _ :: _ => true
  | _ :: _, [] => false
  | a :: as1, b :: bs => if a == b then lexLt as1 bs else decide (a < b)

/-- Modelled from the spec's words (C2): record `a` may precede record `b`
when its issue date is smaller, or the dates are equal and the case-folded
song of `a` is not above that of `b`. -/
def specPairLe (a b : WeekRow) : Bool :=
  lexLt (a.issue_date.getD "").data (b.issue_date.getD "").data
    || ((a.issue_date.getD "").data == (b.issue_date.getD "").data
      && (lexLt (lowerStr a.song).data (lowerStr b.song).data
        || (lowerStr a.song).data == (lowerStr b.song).data))

/-- Adjacent-pairs check of an ordering predicate. -/
def chainSortedBy (le : WeekRow → WeekRow → Bool) : List WeekRow → Bool
  | [] => true
  | [_] => true
  | a :: b :: rest => le a b && chainSortedBy le (b :: rest)

/-- Modelled from the spec's words (C2): the combined dataset sorted
ascending by issue date with the case-folded song as tie-break. -/
def sortedSpec (rs : List WeekRow) : Bool := chainSortedBy specPairLe rs

/-- C1: the merge step keeps both copies of a record whose dedup key
`(issueDate, lowercase song, lowercase artist)` already occurred: the
combined dataset of a run over the single year 2018, fed a table that lists
the same `(2018-01-06, Havana, Camila Cabello)` row twice, holds two
records with that key, not exactly one. -/
theorem c1_counterexample :
    ((runCombined dupFetch 2018 2018).filter
      (fun r => r.issue_date == some "2018-01-06"
        && lowerStr r.song == "havana"
        && lowerStr r.artist == "camila cabello")).length = 2 := by decide

/-- C1 (amended): `combine_all_years` performs no deduplication at all: the
combined dataset is the plain concatenation of the per-year arrays in
ascending year order, so every record of every per-year file — duplicate
keys included, each with its multiplicity — is retained. -/
theorem c1_amended_concat (files : Nat → Option (List WeekRow)) (start last : Nat) :
    combine_all_years files start last
      = (yearRange start last).flatMap (fun y => (files y).getD [])
    ∧ ∀ r : WeekRow,
        (combine_all_years files start last).count r
          = ((yearRange start last).map
              (fun y => ((files y).getD []).count r)).sum := by
  refine ⟨combine_all_years_eq_flatMap files start last, fun r => ?_⟩
  rw [combine_all_years_eq_flatMap, List.count_flatMap]
  rfl

/-- C2: the merge step does not sort: a run over the single year 2018 whose
page lists January 13 before January 6 yields a combined dataset whose
issue-date sequence decreases, violating the claimed
date-then-case-folded-song ordering. -/
theorem c2_counterexample :
    (runCombined unsortedFetch 2018 2018).map (fun r => r.issue_date)
        = [some "2018-01-13", some "2018-01-06"]
      ∧ sortedSpec (runCombined unsortedFetch 2018 2018) = false := by decide

/-- C2 (amended): the merge step reorders nothing: under any projection the
combined dataset reads exactly as the per-year arrays concatenated in
ascending year order, each in its stored (traversal) order; it is therefore
sorted only when the inputs happen to be. -/
theorem c2_amended_order {α : Type} (files : Nat → Option (List WeekRow))
    (start last : Nat) (f : WeekRow → α) :
    (combine_all_years files start last).map f
      = (yearRange start last).flatMap (fun y => ((files y).getD []).map f) := by
  rw [combine_all_years_eq_flatMap, List.map_flatMap]

/-- A table whose header maps the date and song roles but no artist role. -/
def dateSongTable : Table :=
  ⟨["wikitable"], [],
   [["Issue date", "Song"],
    ["January 6, 2018", "Havana"]]⟩

/-- A table whose header maps the song and artist roles but no date role. -/
def songArtistTable : Table :=
  ⟨["wikitable"], [],
   [["Song", "Artist"],
    ["X", "Y"]]⟩

/-- C3: a table mapping `date` and `song` but lacking `artist` contributes
nothing — its fully parseable data row included — while a table mapping
`song` and `artist` but lacking `date` does contribute rows.  So a table
does not qualify by having the date and song roles, and artist absence does
disqualify. -/
theorem c3_counterexample :
    (header_map_from_table dateSongTable).date = some 0
      ∧ (header_map_from_table dateSongTable).song = some 1
      ∧ (header_map_from_table dateSongTable).artist = none
      ∧ extract_rows_for_year [dateSongTable] 2018 "u" = []
      ∧ (header_map_from_table songArtistTable).date = none
      ∧ extract_rows_for_year [songArtistTable] 2018 "u" ≠ [] := by decide

/-- C3 (amended): a table contributes extracted rows only if its
header-derived role map contains both the `song` role and the `artist`
role; the `date` role is not required (a table without it still
contributes, its records carrying a null issue date). -/
theorem c3_amended_qualification (t : Table) (y : Nat) (s : String) :
    (((header_map_from_table t).song = none ∨ (header_map_from_table t).artist = none)
        → tableRows t y s = [])
      ∧ ((header_map_from_table songArtistTable).date = none
        ∧ tableRows songArtistTable 2018 "u" ≠ []) := by
  refine ⟨fun h => ?_, by decide, by decide⟩
  unfold tableRows
  cases hs : (header_map_from_table t).song with
  | none => cases (header_map_from_table t).artist <;> rfl
  | some si =>
    cases ha : (header_map_from_table t).artist with
    | none => rfl
    | some ai =>
      rcases h with h | h
      · rw [hs] at h; cases h
      · rw [ha] at h; cases h

/-- A table whose data row has a non-empty song cell and an empty artist
cell. -/
def emptyArtistTable : Table :=
  ⟨["wikitable"],
   [["Issue date", "Song", "Artist(s)"]],
   [["January 6, 2018", "X", ""]]⟩

/-- C4: a data row whose cleaned song text is non-empty but whose cleaned
artist text is empty is rejected — extraction of a page holding exactly
that row yields nothing, where the claim promises a record with an empty
artist. -/
theorem c4_counterexample :
    norm_text "X" ≠ ""
      ∧ extract_rows_for_year [emptyArtistTable] 2018 "u" = [] := by decide

/-- C4 (amended): a data row (with at least two cells and with its song and
artist indices in range) is rejected exactly when the cleaned song text is
empty or the cleaned artist text is empty — an empty artist rejects the row
just as an empty song does.  Cleaned here means whitespace-normalized
(`norm_text`): the test precedes quote-stripping, so a quote-only artist
cell still passes it and its stored field strips to the empty string. -/
theorem c4_amended_rejection (dIdx : Option Nat) (si ai year idx : Nat) (src : String)
    (tds : Row) (hs : si < tds.length) (ha : ai < tds.length)
    (hlen : 2 ≤ tds.length) :
    processRow dIdx si ai year src idx tds = none
      ↔ (norm_text (tds.get ⟨si, hs⟩) = "" ∨ norm_text (tds.get ⟨ai, ha⟩) = "") := by
  unfold processRow
  rw [if_neg (by omega), List.getElem?_eq_getElem hs, List.getElem?_eq_getElem ha]
  by_cases hempty : norm_text tds[si] = "" ∨ norm_text tds[ai] = ""
  · simp [hempty]
  · simp [hempty]

/-- C4 amended, witnessed at the fixture row: song cleans to `"X"`, artist
cleans to empty, and the row is rejected. -/
theorem c4_amended_rejection_witness :
    processRow none 1 2 2018 "u" 0 ["January 6, 2018", "X", ""] = none :=
  (c4_amended_rejection none 1 2 2018 0 "u" ["January 6, 2018", "X", ""]
    (by decide) (by decide) (by decide)).mpr (Or.inr (by decide))

/-- C5: three of the four reference equations hold, but the abbreviated
form does not: `try_parse_date` has no month-abbreviation table, the
`"%B %d %Y"` parse rejects `Jan`, and the fallback search only matches full
month names, so `"Jan. 6, 2018"` normalizes to `none` — although the
function's own docstring lists `'Jan. 7'` among the date shapes it handles. -/
theorem c5_date_equations :
    try_parse_date "January 6" 2018 = some "2018-01-06"
      ∧ try_parse_date "Jan. 6, 2018" 2018 = none
      ∧ (∀ y : Nat, try_parse_date "2018-01-06" y = some "2018-01-06")
      ∧ try_parse_date "not a date" 2018 = none := by
  refine ⟨by decide, by decide, fun y => rfl, by decide⟩

/-- The scenario table of C6 in Wikipedia markup: the header row is the
first row of the tbody (MediaWiki emits no thead element). -/
def scenarioTable : Table :=
  ⟨["wikitable"], [],
   [["Issue date", "Song", "Artist(s)"],
    ["January 6, 2018", "\"Havana\"", "Camila Cabello"]]⟩

/-- The scenario table of C6 with its header row inside an explicit thead. -/
def scenarioTableThead : Table :=
  ⟨["wikitable"],
   [["Issue date", "Song", "Artist(s)"]],
   [["January 6, 2018", "\"Havana\"", "Camila Cabello"]]⟩

/-- C6: on the scenario table as Wikipedia serves it (header row inside the
tbody) extraction yields two records, not exactly one: the row loop walks
the header row too, and its cells pass the non-empty song/artist test. -/
theorem c6_counterexample :
    (extract_rows_for_year [scenarioTable] 2018 "u").length = 2 := by decide

/-- C6 (amended): when the header row sits in an explicit thead, extraction
yields exactly the claimed record (issue date 2018-01-06, song `Havana`
with quotes stripped, artist `Camila Cabello`, year 2018); when the header
row is the first body row, that record is preceded by a spurious record
extracted from the header cells (`song := "Song"`, `artist := "Artist(s)"`,
null date). -/
theorem c6_amended_scenario :
    extract_rows_for_year [scenarioTableThead] 2018 "u"
        = [⟨2018, some "2018-01-06", some "2018-01-06",
            "Havana", "Camila Cabello", "u", 0⟩]
      ∧ extract_rows_for_year [scenarioTable] 2018 "u"
        = [⟨2018, none, none, "Song", "Artist(s)", "u", 0⟩,
           ⟨2018, some "2018-01-06", some "2018-01-06",
            "Havana", "Camila Cabello", "u", 1⟩] := by decide

/-- A 2018 page whose only data row carries an explicit 2017 ISO date. -/
def bleedTable : Table :=
  ⟨["wikitable"],
   [["Issue date", "Song", "Artist(s)"]],
   [["2017-12-30", "X", "Y"]]⟩

/-- A fetch that serves `bleedTable` for every year. -/
def bleedFetch : Nat → Except String (List Table) := fun _ => .ok [bleedTable]

/-- Modelled from the claim's words (C7): the year component of an ISO
`YYYY-MM-DD` string. -/
def isoYearOf (s : String) : Nat := charsToNat (s.data.take 4)

/-- C7: the code never checks the parsed date against the page's year: a
2018 run over a page dated `2017-12-30` yields a combined record with
`year = 2018` but an issue date whose year component is 2017, so
`r.year = r.issueDate.year` fails on the combined dataset. -/
theorem c7_counterexample :
    (runCombined bleedFetch 2018 2018).map (fun r => (r.year, r.issue_date))
        = [(2018, some "2017-12-30")]
      ∧ isoYearOf "2017-12-30" = 2017 := by decide

/-- C7 (amended): the range half of the claim holds — every record of a
run's combined dataset carries the nominal year of the page it came from,
so its `year` lies between the run's first and last year — but `year` is
not derived from the issue date: a date cell carrying its own different
year (or failing to parse at all) leaves `year == issueDate.year` false. -/
theorem c7_amended_range (fetch : Nat → Except String (List Table))
    (start last : Nat) (r : WeekRow) (h : r ∈ runCombined fetch start last) :
    start ≤ r.year ∧ r.year ≤ last := by
  unfold runCombined at h
  rw [combine_all_years_eq_flatMap] at h
  rcases List.mem_flatMap.mp h with ⟨y, hy, hr⟩
  rw [Option.getD_some] at hr
  have hyear := scrape_year_year fetch y r hr
  have hb := mem_yearRange hy
  omega

/-- C7 amended, witnessed on the single-year bleed run. -/
theorem c7_amended_range_witness :
    2018 ≤ (⟨2018, some "2017-12-30", some "2017-12-30", "X", "Y",
        wiki_year_url 2018, 0⟩ : WeekRow).year
      ∧ (⟨2018, some "2017-12-30", some "2017-12-30", "X", "Y",
        wiki_year_url 2018, 0⟩ : WeekRow).year ≤ 2018 :=
  c7_amended_range bleedFetch 2018 2018 _ (by decide)

/-- A table mapping song to column 2, over a data row of only two cells. -/
def shortRowTable : Table :=
  ⟨["wikitable"],
   [["Date", "Artist", "Song"]],
   [["January 6, 2018", "X"]]⟩

/-- C8: no positional fallback exists: with the song role mapped to column
2 and a two-cell data row, the claimed fallback would resolve song from
`min(1, lastIndex) = 1` and keep the row, but extraction drops it — the
out-of-range index raises, and the handler skips the row. -/
theorem c8_counterexample :
    (header_map_from_table shortRowTable).date = some 0
      ∧ (header_map_from_table shortRowTable).song = some 2
      ∧ (["January 6, 2018", "X"] : Row).length = 2
      ∧ extract_rows_for_year [shortRowTable] 2018 "u" = [] := by decide

/-- C8 (amended): when the mapped song or artist index falls outside a data
row, the row is dropped (the `IndexError` handler's `continue`), and when
the mapped date index falls outside, the emitted record's issue date is
null; no role is re-resolved from positional defaults. -/
theorem c8_amended_out_of_range (dIdx : Option Nat) (si ai year idx : Nat)
    (src : String) (tds : Row) :
    ((tds.length ≤ si ∨ tds.length ≤ ai)
        → processRow dIdx si ai year src idx tds = none)
      ∧ (∀ d, dIdx = some d → tds.length ≤ d →
          ∀ r, processRow dIdx si ai year src idx tds = some r
            → r.issue_date = none) := by
  constructor
  · intro h
    unfold processRow
    rcases h with h | h
    · rw [List.getElem?_eq_none h]
      split
      · rfl
      · cases hai : tds[ai]? <;> rfl
    · rw [List.getElem?_eq_none h]
      split
      · rfl
      · cases hsi : tds[si]? <;> rfl
  · intro d hd hdlen r hr
    subst hd
    unfold processRow at hr
    split at hr
    · exact absurd hr (by simp)
    · split at hr
      · split at hr
        · exact absurd hr (by simp)
        · injection hr with hr
          subst hr
          show dateOfRow (some d) year tds = none
          simp [dateOfRow, show ¬d < tds.length by omega]
      · exact absurd hr (by simp)

/-- C9: a year whose fetch fails (the `except` branch of `scrape_year`)
stores the empty array for that year, and the run is otherwise untouched:
the combined dataset equals that of a run in which the failing year had
simply fetched an empty page — every other year is still scraped and the
final merge still takes place. -/
theorem c9_fetch_failure_isolated (fetch : Nat → Except String (List Table))
    (start last y : Nat) (e : String) (h : fetch y = .error e) :
    scrape_year fetch y = []
      ∧ runCombined fetch start last
        = runCombined (fun z => if z = y then .ok [] else fetch z) start last := by
  have hscr : ∀ z, scrape_year fetch z
      = scrape_year (fun w => if w = y then .ok [] else fetch w) z := by
    intro z
    by_cases hz : z = y
    · subst hz
      unfold scrape_year
      rw [h]
      simp
      rfl
    · unfold scrape_year
      simp [hz]
  constructor
  · unfold scrape_year
    rw [h]
  · unfold runCombined
    have : (fun z => some (scrape_year fetch z))
        = fun z => some (scrape_year (fun w => if w = y then .ok [] else fetch w) z) :=
      funext fun z => by rw [hscr z]
    rw [this]

/-- A fetch for which every year fails. -/
def downFetch : Nat → Except String (List Table) := fun _ => .error "down"

/-- C9, witnessed on a two-year run whose 2018 fetch fails. -/
theorem c9_fetch_failure_isolated_witness :
    scrape_year downFetch 2018 = []
      ∧ runCombined downFetch 2018 2019
        = runCombined (fun z => if z = 2018 then .ok [] else downFetch z) 2018 2019 :=
  c9_fetch_failure_isolated downFetch 2018 2019 2018 "down" rfl

/-- C10: every record the row extractor emits carries the same value in
`week` as in `issue_date` — the same ISO string, or `none` in both when the
date cell was absent or unparseable. -/
theorem c10_week_equals_issue_date (tables : List Table) (year : Nat) (src : String)
    (r : WeekRow) (h : r ∈ extract_rows_for_year tables year src) :
    r.week = r.issue_date :=
  (extract_shape tables year src r h).2.1

/-- C10, witnessed on the scenario extraction. -/
theorem c10_week_equals_issue_date_witness :
    (⟨2018, some "2018-01-06", some "2018-01-06",
        "Havana", "Camila Cabello", "u", 0⟩ : WeekRow).week
      = (⟨2018, some "2018-01-06", some "2018-01-06",
        "Havana", "Camila Cabello", "u", 0⟩ : WeekRow).issue_date :=
  c10_week_equals_issue_date [scenarioTableThead] 2018 "u" _ (by decide)

end Billboard
